import Mathlib

/-!
# Verification of the caffeine-ng inhibition core (src/caffeine/core.py)

This file gives a shallow embedding of the `Caffeine` class of
`src/caffeine/core.py` and proves properties of its toggle state machine,
auto-activation monitor, timed activation, backend detection and backend
adapters.

Modelling conventions:
* The mutable object state (`self.*` fields) is the record `CaffeineState`.
* The outside world (D-Bus service availability, D-Bus call outcomes,
  process liveness, window-manager state) is the record `DesktopEnv`;
  it is fixed during one method call and may differ between calls.
* Every method is a function `CaffeineState → Except PyErr A × CaffeineState
  × List Evt`: the result (a Python exception propagates as
  `Except.error`), the state after the call (mutations made before a raise
  persist, as with a Python object), and the trace of externally visible
  effects in order (log lines, notifications, shell commands, D-Bus calls,
  timer starts and cancellations, signal emissions).
* `subprocess.getoutput` never raises, so shell commands are infallible
  trace entries.  D-Bus inhibit and uninhibit calls may raise, as dictated
  by `DesktopEnv`.
* The two calls to `self.__set_activated` and the completed runs of
  `self.__toggle_activated` are additionally marked in the trace
  (`Evt.setActivatedCall`, `Evt.toggleCompleted`) so that control
  flow facts can be stated about traces.
-/

/-- Notification icons (`empty_cup_icon` and `full_cup_icon`). -/
inductive Icon where
  | emptyCup
  | fullCup
deriving DecidableEq

/-- Python exceptions that the embedded code can raise. -/
inductive PyErr where
  | dbusError
  | attributeError
deriving DecidableEq

/-- A `threading.Timer` object: its interval, and its `name` attribute,
which the source sets to "Active" on creation and to "Expired" when the
timer fires. -/
structure TimerObj where
  interval : Nat
  name : String
deriving DecidableEq

/-- The mutable fields of the `Caffeine` object (`core.py` lines 44-72).
`note` records whether `self.note` holds a notification object, and
`ssProxySet` whether the attribute `self.ssProxy` exists (it is only
assigned in `_toggleKDE`). -/
structure CaffeineState where
  status_string : String
  screensaverAndPowersavingType : Option String
  inhibition_activated : Bool
  inhibition_successful : Bool
  auto_activated : Bool
  screenSaverCookie : Option Nat
  powerManagementCookie : Option Nat
  timer : Option TimerObj
  inhibit_id : Option Nat
  note : Bool
  ssProxySet : Bool
deriving DecidableEq

/-- The world outside the `Caffeine` object during one method call:
which D-Bus services are reachable, whether xscreensaver runs, the
whitelisted processes with their liveness, the window-manager state, and
the outcome of each possible D-Bus call (`none` and `false` mean the call
raises). -/
structure DesktopEnv where
  gnomeSessionAvailable : Bool
  fdScreensaverAvailable : Bool
  fdPowerAvailable : Bool
  xscreensaverRunning : Bool
  procs : List (String × Bool)
  hasActiveWindow : Bool
  wmStateNonNull : Bool
  wmStateFullscreen : Bool
  gnomeInhibitCookie : Option Nat
  gnomeUninhibitOk : Bool
  ssInhibitCookie : Option Nat
  ssUninhibitOk : Bool
  pmInhibitCookie : Option Nat
  pmUninhibitOk : Bool
  timeoutAddId : Nat
deriving DecidableEq

/-- Externally visible effects, in program order. -/
inductive Evt where
  | logged (msg : String)
  | emitActivationToggled (active : Bool) (msg : String)
  | notificationShown (msg : String) (icon : Icon)
  | shell (cmd : String)
  | dbusGnomeInhibit (cookie : Nat)
  | dbusGnomeUninhibit (cookie : Nat)
  | dbusSsInhibit (cookie : Nat)
  | dbusSsUninhibit (cookie : Nat)
  | dbusPmInhibit (cookie : Nat)
  | dbusPmUninhibit (cookie : Nat)
  | timerStarted (interval : Nat)
  | timerCancelled (interval : Nat)
  | sourceRemoved (id : Nat)
  | timeoutAdded (ms : Nat)
  | setActivatedCall (activate : Bool)
  | toggleCompleted
deriving DecidableEq

/-- A Python method body: result or exception, final state, effect trace. -/
abbrev PyM (α : Type) := CaffeineState → Except PyErr α × CaffeineState × List Evt

/-- Sequencing with Python exception semantics: a raise aborts the rest,
keeping the state mutations and effects made so far. -/
def seqPy {α β : Type} (x : PyM α) (f : α → PyM β) : PyM β := fun s =>
  match (x s).1 with
  | Except.ok a =>
    ((f a (x s).2.1).1, (f a (x s).2.1).2.1, (x s).2.2 ++ (f a (x s).2.1).2.2)
  | Except.error e => (Except.error e, (x s).2.1, (x s).2.2)

/-- True when a result is a normal return. -/
def okBool {α : Type} : Except PyErr α → Bool
  | Except.ok _ => true
  | Except.error _ => false

/-- Turns a unit result into the `return True` of the monitor callback,
letting an exception through. -/
def mapOkTrue : Except PyErr Unit → Except PyErr Bool
  | Except.ok _ => Except.ok true
  | Except.error e => Except.error e

/-- Recognises `activation-toggled` emissions in a trace. -/
def Evt.isEmit : Evt → Bool
  | Evt.emitActivationToggled _ _ => true
  | _ => false

/-- Recognises `activation-toggled` emissions carrying `active = false`. -/
def Evt.isFalseEmit : Evt → Bool
  | Evt.emitActivationToggled false _ => true
  | _ => false

/-- Recognises the completion marker of `__toggle_activated`. -/
def Evt.isCompleted : Evt → Bool
  | Evt.toggleCompleted => true
  | _ => false

/-- Recognises log lines. -/
def Evt.isLogged : Evt → Bool
  | Evt.logged _ => true
  | _ => false

/-- Recognises Gnome session-manager Uninhibit calls. -/
def Evt.isGnomeUninhibit : Evt → Bool
  | Evt.dbusGnomeUninhibit _ => true
  | _ => false

/-- Recognises freedesktop screensaver UnInhibit calls. -/
def Evt.isSsUninhibit : Evt → Bool
  | Evt.dbusSsUninhibit _ => true
  | _ => false

/-- Recognises freedesktop power-management UnInhibit calls. -/
def Evt.isPmUninhibit : Evt → Bool
  | Evt.dbusPmUninhibit _ => true
  | _ => false

/-- Recognises `GObject.source_remove` calls. -/
def Evt.isSourceRemoved : Evt → Bool
  | Evt.sourceRemoved _ => true
  | _ => false

/-- The timers that a trace leaves started and not cancelled, oldest
first (each cancellation removes one matching start). -/
def liveTimersAux : List Nat → List Evt → List Nat
  | acc, [] => acc
  | acc, Evt.timerStarted i :: rest => liveTimersAux (acc ++ [i]) rest
  | acc, Evt.timerCancelled i :: rest => liveTimersAux (acc.erase i) rest
  | acc, _ :: rest => liveTimersAux acc rest

/-- Live timers of a whole trace. -/
def liveTimers (t : List Evt) : List Nat := liveTimersAux [] t

/-- The detection chain of `_detectScreensaverAndPowersavingType`
(`core.py` lines 300-308): first match wins. -/
def detectType (env : DesktopEnv) : String :=
  if env.gnomeSessionAvailable then "Gnome3"
  else if env.fdScreensaverAvailable && env.fdPowerAvailable then "KDE"
  else if env.xscreensaverRunning then "XSS+DPMS"
  else "DPMS"

/-- Embeds `_detectScreensaverAndPowersavingType` (`core.py` lines
291-311): runs the detection chain and stores the result. -/
def detectScreensaverAndPowersavingType (env : DesktopEnv) : PyM Unit := fun s =>
  (Except.ok (),
   { s with screensaverAndPowersavingType := some (detectType env) },
   [Evt.logged "Attempting to detect screensaver/powersaving type...",
    Evt.logged ("Successfully detected screensaver and powersaving type: "
      ++ detectType env)])

/-- Embeds `_toggleDPMS` (`core.py` lines 379-386): shell commands only,
`subprocess.getoutput` never raises. -/
def toggleDPMS : PyM Unit := fun s =>
  if s.inhibition_successful then
    (Except.ok (), s, [Evt.shell "xset +dpms", Evt.shell "xset s on"])
  else
    (Except.ok (), s, [Evt.shell "xset -dpms", Evt.shell "xset s off"])

/-- Embeds `_toggleXSS` (`core.py` lines 388-409): remove the keepalive
source when uninhibiting (if one was registered), otherwise register a
50-second keepalive. -/
def toggleXSS (env : DesktopEnv) : PyM Unit := fun s =>
  if s.inhibition_successful then
    match s.inhibit_id with
    | some i => (Except.ok (), s, [Evt.sourceRemoved i])
    | none => (Except.ok (), s, [])
  else
    (Except.ok (), { s with inhibit_id := some env.timeoutAddId },
     [Evt.timeoutAdded 50000])

/-- Embeds `_toggleXSSAndDPMS` (`core.py` lines 375-377). -/
def toggleXSSAndDPMS (env : DesktopEnv) : PyM Unit :=
  seqPy (toggleXSS env) fun _ => toggleDPMS

/-- Embeds `_toggleGnome3` (`core.py` lines 334-350): DPMS toggle, then
the session-manager Uninhibit (guarded by cookie presence) or Inhibit
(storing the returned cookie).  A failing D-Bus call raises. -/
def toggleGnome3 (env : DesktopEnv) : PyM Unit :=
  seqPy toggleDPMS fun _ => fun s =>
    if s.inhibition_successful then
      match s.screenSaverCookie with
      | some c =>
        if env.gnomeUninhibitOk then
          (Except.ok (), s, [Evt.dbusGnomeUninhibit c])
        else (Except.error PyErr.dbusError, s, [])
      | none => (Except.ok (), s, [])
    else
      match env.gnomeInhibitCookie with
      | some c =>
        (Except.ok (), { s with screenSaverCookie := some c },
         [Evt.dbusGnomeInhibit c])
      | none => (Except.error PyErr.dbusError, s, [])

/-- The power-management UnInhibit step of `_toggleKDE` (`core.py` lines
365-366), performed after the screensaver UnInhibit step; `t1` is the
trace accumulated so far. -/
def kdeReleasePm (env : DesktopEnv) (s : CaffeineState) (t1 : List Evt) :
    Except PyErr Unit × CaffeineState × List Evt :=
  match s.powerManagementCookie with
  | some c =>
    if env.pmUninhibitOk then (Except.ok (), s, t1 ++ [Evt.dbusPmUninhibit c])
    else (Except.error PyErr.dbusError, s, t1)
  | none => (Except.ok (), s, t1)

/-- Embeds `_toggleKDE` (`core.py` lines 352-373): DPMS toggle, assign
`self.ssProxy`, then either release both cookies (each release guarded by
presence of its cookie, screensaver first) or acquire both (power
management first, then screensaver, as in the source). -/
def toggleKDE (env : DesktopEnv) : PyM Unit :=
  seqPy toggleDPMS fun _ => fun s0 =>
    let s := { s0 with ssProxySet := true }
    if s.inhibition_successful then
      match s.screenSaverCookie with
      | some c =>
        if env.ssUninhibitOk then kdeReleasePm env s [Evt.dbusSsUninhibit c]
        else (Except.error PyErr.dbusError, s, [])
      | none => kdeReleasePm env s []
    else
      match env.pmInhibitCookie with
      | none => (Except.error PyErr.dbusError, s, [])
      | some cp =>
        match env.ssInhibitCookie with
        | none =>
          (Except.error PyErr.dbusError,
           { s with powerManagementCookie := some cp },
           [Evt.dbusPmInhibit cp])
        | some cs =>
          (Except.ok (),
           { s with powerManagementCookie := some cp,
                    screenSaverCookie := some cs },
           [Evt.dbusPmInhibit cp, Evt.dbusSsInhibit cs])

/-- The two log lines of the `except` branch of `_notify`. -/
def exceptionLogs (message : String) : List Evt :=
  [Evt.logged "Exception occurred",
   Evt.logged ("Exception occurred attempting to display message: " ++ message)]

/-- Embeds `_notify` (`core.py` lines 141-170).  The whole body is inside
`try/except/finally`, so the method always returns `false` and never
raises.  While a screensaver cookie is held and inhibition is marked
successful, the notification temporarily releases and re-acquires the
inhibition through `self.ssProxy`; if `self.ssProxy` was never assigned
this raises an AttributeError which the `except` branch swallows. -/
def notifyMessage (env : DesktopEnv) (message : String) (ic : Icon) : PyM Bool := fun s =>
  let s0 := if s.note then s else { s with note := true }
  if s0.screenSaverCookie.isSome && s0.inhibition_successful then
    if s0.ssProxySet = false then
      (Except.ok false, s0, exceptionLogs message)
    else if env.ssUninhibitOk = false then
      (Except.ok false, s0, exceptionLogs message)
    else
      let c := s0.screenSaverCookie.getD 0
      let t1 := [Evt.dbusSsUninhibit c, Evt.notificationShown message ic]
      match env.ssInhibitCookie with
      | some c2 =>
        (Except.ok false, { s0 with screenSaverCookie := some c2 },
         t1 ++ [Evt.dbusSsInhibit c2])
      | none => (Except.ok false, s0, t1 ++ exceptionLogs message)
  else
    (Except.ok false, s0, [Evt.notificationShown message ic])

/-- The backend dispatch chain of `_performTogglingActions` (`core.py`
lines 318-325). -/
def backendDispatch (env : DesktopEnv) : PyM Unit := fun s =>
  if s.screensaverAndPowersavingType = some "Gnome3" then toggleGnome3 env s
  else if s.screensaverAndPowersavingType = some "KDE" then toggleKDE env s
  else if s.screensaverAndPowersavingType = some "XSS+DPMS" then
    toggleXSSAndDPMS env s
  else if s.screensaverAndPowersavingType = some "DPMS" then toggleDPMS s
  else (Except.ok (), s, [])

/-- The tail of `_performTogglingActions` (`core.py` lines 327-332):
log when inhibition was not yet marked successful, then flip
`__inhibition_successful`. -/
def successFlip : PyM Unit := fun s =>
  let t :=
    if s.inhibition_successful = false then
      [Evt.logged
        ("Caffeine is now preventing powersaving modes and screensaver activation ("
          ++ (s.screensaverAndPowersavingType.getD "") ++ ")")]
    else []
  (Except.ok (), { s with inhibition_successful := !s.inhibition_successful }, t)

/-- Embeds `_performTogglingActions` (`core.py` lines 313-332): runs
detection unconditionally, dispatches on the detected backend string,
and flips `__inhibition_successful` at the end. -/
def performTogglingActions (env : DesktopEnv) : PyM Unit :=
  seqPy (detectScreensaverAndPowersavingType env) fun _ =>
  seqPy (backendDispatch env) fun _ =>
  successFlip

/-- The fixed status string of the deactivation branch. -/
def dormantStatus : String := "Caffeine is dormant; powersaving is enabled"

/-- The first half of `__toggle_activated` (`core.py` lines 237-276):
flip the `__inhibition_activated` flag and, when deactivating, handle the
pending timer (cancelled versus expired) with its notification.  This
part cannot raise, so it returns state and trace directly. -/
def deactivationPrelude (env : DesktopEnv) (note : Bool) (s : CaffeineState) :
    CaffeineState × List Evt :=
  if s.inhibition_activated then
    let sA : CaffeineState :=
      { s with inhibition_activated := false, status_string := dormantStatus }
    let tA : List Evt :=
      [Evt.logged "Caffeine is now dormant; powersaving is re-enabled"]
    match s.timer with
    | some tm =>
      if tm.name ≠ "Expired" then
        let msg := "Timed activation cancelled (was set for "
          ++ toString tm.interval ++ ")"
        let tB := tA ++ [Evt.logged msg]
        let sC := if note then (notifyMessage env msg Icon.emptyCup sA).2.1 else sA
        let tC := if note then tB ++ (notifyMessage env msg Icon.emptyCup sA).2.2 else tB
        ({ sC with timer := none }, tC ++ [Evt.timerCancelled tm.interval])
      else
        let msg := toString tm.interval ++ " have elapsed; powersaving is re-enabled"
        let tB := tA ++ [Evt.logged ("Timed activation period ("
          ++ toString tm.interval ++ ") has elapsed")]
        let sC := if note then (notifyMessage env msg Icon.emptyCup sA).2.1 else sA
        let tC := if note then tB ++ (notifyMessage env msg Icon.emptyCup sA).2.2 else tB
        ({ sC with timer := none }, tC)
    | none => (sA, tA)
  else
    ({ s with inhibition_activated := true }, [])

/-- Embeds `__toggle_activated` (`core.py` lines 235-289): the prelude
above, then `_performTogglingActions` (whose D-Bus errors propagate and
abort the rest), then status-string composition, the
`activation-toggled` emission, and clearing of the status string. -/
def toggle_activated_private (env : DesktopEnv) (note : Bool) : PyM Unit := fun s =>
  let s1 := (deactivationPrelude env note s).1
  let t1 := (deactivationPrelude env note s).2
  match (performTogglingActions env s1).1 with
  | Except.error e =>
    (Except.error e, (performTogglingActions env s1).2.1,
     t1 ++ (performTogglingActions env s1).2.2)
  | Except.ok _ =>
    let s2 := (performTogglingActions env s1).2.1
    let t2 := (performTogglingActions env s1).2.2
    let s3 :=
      if s2.status_string = "" then
        match s2.screensaverAndPowersavingType with
        | some ty =>
          { s2 with status_string :=
              "Caffeine is preventing powersaving modes and screensaver activation ("
                ++ ty ++ ")" }
        | none => s2
      else s2
    (Except.ok (),
     { s3 with status_string := "" },
     t1 ++ t2 ++ [Evt.emitActivationToggled s3.inhibition_activated s3.status_string,
                  Evt.toggleCompleted])

/-- Embeds `toggle_activated` (`core.py` lines 226-233): clear the
auto-activated flag, then run the internal toggle. -/
def toggle_activated (env : DesktopEnv) (show_notifica : Bool) : PyM Unit := fun s =>
  toggle_activated_private env show_notifica { s with auto_activated := false }

/-- Embeds `set_activated` (`core.py` lines 220-224): toggle only when the
requested value differs from the current one. -/
def set_activated (env : DesktopEnv) (activate show_notifica : Bool) : PyM Unit := fun s =>
  if s.inhibition_activated ≠ activate then toggle_activated env show_notifica s
  else (Except.ok (), s, [])

/-- Embeds `__set_activated` (`core.py` lines 209-213): like
`set_activated` but without clearing the auto flag, and passing
`activate` as the `note` argument of the internal toggle, exactly as the
source does.  The call itself is marked in the trace. -/
def set_activated_private (env : DesktopEnv) (activate : Bool) : PyM Unit := fun s =>
  if s.inhibition_activated ≠ activate then
    ((toggle_activated_private env activate s).1,
     (toggle_activated_private env activate s).2.1,
     Evt.setActivatedCall activate :: (toggle_activated_private env activate s).2.2)
  else (Except.ok (), s, [Evt.setActivatedCall activate])

/-- The fullscreen determination of `__attempt_autoactivation`
(`core.py` lines 103-113). -/
def fullscreenDetected (env : DesktopEnv) : Bool :=
  if env.hasActiveWindow then env.wmStateNonNull && env.wmStateFullscreen
  else false

/-- The whitelisted-process loop of `__attempt_autoactivation`
(`core.py` lines 89-101): returns whether any whitelisted process runs,
and the log lines the loop produces. -/
def procScan (s : CaffeineState) : List (String × Bool) → Bool × List Evt
  | [] => (false, [])
  | (name, running) :: rest =>
    if running then
      let t0 :=
        if s.auto_activated then
          [Evt.logged ("Process " ++ name ++ " detected but was already auto-activated")]
        else if !s.inhibition_activated then
          [Evt.logged ("Process " ++ name ++ " detected. Inhibiting.")]
        else []
      (true, t0 ++ (procScan s rest).2)
    else procScan s rest

/-- Embeds `__attempt_autoactivation` (`core.py` lines 79-132). -/
def attempt_autoactivation (env : DesktopEnv) : PyM Bool := fun s =>
  if s.inhibition_activated && !s.auto_activated then
    (Except.ok true, s,
     [Evt.logged "Inhibition manually activated. Will not attempt to auto-activate"])
  else
    let process_running := (procScan s env.procs).1
    let tP := (procScan s env.procs).2
    let fullscreen := fullscreenDetected env
    let tF :=
      if fullscreen then
        if s.auto_activated then
          [Evt.logged "Fullscreen app detected, but was already auto-activated"]
        else if !s.inhibition_activated then
          [Evt.logged "Fullscreen app detected. Inhibiting."]
        else []
      else []
    if !process_running && !fullscreen && s.auto_activated then
      let tHead := tP ++ tF ++
        [Evt.logged "Was auto-inhibited, but there is no fullscreen or whitelisted process now. De-activating."]
      let r := set_activated_private env false { s with auto_activated := false }
      (mapOkTrue r.1, r.2.1, tHead ++ r.2.2)
    else if process_running || (fullscreen && !s.auto_activated) then
      let r := set_activated_private env true { s with auto_activated := true }
      (mapOkTrue r.1, r.2.1, (tP ++ tF) ++ r.2.2)
    else (Except.ok true, s, tP ++ tF)

/-- Embeds `timed_activation` (`core.py` lines 172-203): log, possibly
emit an early status event, force activation, notify, cancel a pending
timer (logging the supersession with both durations), and start the new
timer. -/
def timed_activation (env : DesktopEnv) (time : Nat) (note : Bool) : PyM Unit := fun s =>
  let message := "Timed activation set; Caffeine will prevent powersaving for the next "
    ++ toString time
  let t0 := [Evt.logged ("Timed activation set for " ++ toString time)]
  let s1 :=
    if s.status_string = "" then
      { s with status_string := "Activated for " ++ toString time }
    else s
  let t1 :=
    if s.status_string = "" then
      t0 ++ [Evt.emitActivationToggled s1.inhibition_activated s1.status_string]
    else t0
  match (set_activated env true note s1).1 with
  | Except.error e =>
    (Except.error e, (set_activated env true note s1).2.1,
     t1 ++ (set_activated env true note s1).2.2)
  | Except.ok _ =>
    let s2 := (set_activated env true note s1).2.1
    let t2 := (set_activated env true note s1).2.2
    let s3 := if note then (notifyMessage env message Icon.fullCup s2).2.1 else s2
    let t3 := if note then (notifyMessage env message Icon.fullCup s2).2.2 else []
    let t4 :=
      match s3.timer with
      | some tm =>
        [Evt.logged ("Previous timed activation cancelled due to a second timed activation request (was set for "
           ++ toString tm.interval ++ " or " ++ toString time ++ " seconds )"),
         Evt.timerCancelled tm.interval]
      | none => []
    (Except.ok (),
     { s3 with timer := some { interval := time, name := "Active" } },
     t1 ++ t2 ++ t3 ++ t4 ++ [Evt.timerStarted time])

/-- Embeds `_deactivate` (`core.py` lines 205-207), the timer-expiry
callback: mark the timer expired, then toggle.  If no timer object is
present the attribute access raises. -/
def deactivate (env : DesktopEnv) (note : Bool) : PyM Unit := fun s =>
  match s.timer with
  | none => (Except.error PyErr.attributeError, s, [])
  | some tm =>
    toggle_activated env note { s with timer := some { tm with name := "Expired" } }

/-- Embeds `quit` (`core.py` lines 134-139): cancel a pending timer. -/
def quitCaffeine : PyM Unit := fun s =>
  match s.timer with
  | some tm => (Except.ok (), s, [Evt.timerCancelled tm.interval])
  | none => (Except.ok (), s, [])

/-- The state built by `Caffeine.__init__` (`core.py` lines 39-77). -/
def initialState : CaffeineState :=
  { status_string := ""
    screensaverAndPowersavingType := none
    inhibition_activated := false
    inhibition_successful := false
    auto_activated := false
    screenSaverCookie := none
    powerManagementCookie := none
    timer := none
    inhibit_id := none
    note := false
    ssProxySet := false }

/-- An environment in which every D-Bus call succeeds. -/
def DesktopEnv.ok (e : DesktopEnv) : Bool :=
  e.gnomeInhibitCookie.isSome && e.gnomeUninhibitOk && e.ssInhibitCookie.isSome
    && e.ssUninhibitOk && e.pmInhibitCookie.isSome && e.pmUninhibitOk

/-- A bare X11 host: no session services, no xscreensaver, no whitelisted
process, no fullscreen window; all D-Bus calls would succeed. -/
def envDpms : DesktopEnv :=
  { gnomeSessionAvailable := false
    fdScreensaverAvailable := false
    fdPowerAvailable := false
    xscreensaverRunning := false
    procs := []
    hasActiveWindow := false
    wmStateNonNull := false
    wmStateFullscreen := false
    gnomeInhibitCookie := some 11
    gnomeUninhibitOk := true
    ssInhibitCookie := some 12
    ssUninhibitOk := true
    pmInhibitCookie := some 13
    pmUninhibitOk := true
    timeoutAddId := 7 }

/-- A host on which the Gnome session manager answers. -/
def envGnome : DesktopEnv :=
  { envDpms with gnomeSessionAvailable := true }

/-- A host on which the Gnome session manager has vanished and the two
freedesktop services answer instead. -/
def envKde : DesktopEnv :=
  { envDpms with fdScreensaverAvailable := true, fdPowerAvailable := true }

/-- A Gnome host whose session-manager Inhibit call raises. -/
def envGnomeBroken : DesktopEnv :=
  { envDpms with gnomeSessionAvailable := true, gnomeInhibitCookie := none }

/-- A bare X11 host with one running whitelisted process and a
fullscreen window. -/
def envBusy : DesktopEnv :=
  { envDpms with
      procs := [("mpv", true)]
      hasActiveWindow := true
      wmStateNonNull := true
      wmStateFullscreen := true }

/-- A state in which inhibition was manually activated. -/
def manualState : CaffeineState :=
  { initialState with inhibition_activated := true }

/-- A state in which inhibition is active and auto-activated. -/
def autoOnState : CaffeineState :=
  { initialState with
      inhibition_activated := true
      auto_activated := true }

/-- State fields that none of the backend adapters nor the notifier may
change. -/
def framePreserved (a b : CaffeineState) : Prop :=
  a.inhibition_activated = b.inhibition_activated ∧
  a.auto_activated = b.auto_activated ∧
  a.inhibition_successful = b.inhibition_successful ∧
  a.timer = b.timer ∧
  a.status_string = b.status_string

/-- A trace with no emission and no completed-toggle marker. -/
def quietTrace (t : List Evt) : Prop :=
  t.countP Evt.isEmit = 0 ∧ t.countP Evt.isCompleted = 0

/-- The two booleans of `Caffeine.__init__` that mirror each other. -/
def flagsMirrored (s : CaffeineState) : Prop :=
  s.inhibition_successful = s.inhibition_activated

/-! ## Helper facts about components -/

/-- Projection facts about `notifyMessage`: it always returns `false`
normally, it only ever changes the `note` and `screenSaverCookie`
fields, and its trace contains no emission and no completion marker. -/
theorem notifyMessage_spec (env : DesktopEnv) (m : String) (ic : Icon)
    (s : CaffeineState) :
    (notifyMessage env m ic s).1 = Except.ok false ∧
    framePreserved (notifyMessage env m ic s).2.1 s ∧
    (notifyMessage env m ic s).2.1.screensaverAndPowersavingType
      = s.screensaverAndPowersavingType ∧
    quietTrace (notifyMessage env m ic s).2.2 := by
  obtain ⟨a, b, c, d, e, f, g, h, i, j, k⟩ := s
  simp only [notifyMessage, framePreserved, quietTrace, exceptionLogs]
  repeat' split
  all_goals simp [List.countP, List.countP.go, Evt.isEmit, Evt.isCompleted]

/-- `_toggleDPMS` leaves the whole state unchanged, only runs shell
commands, and never raises. -/
theorem toggleDPMS_spec (s : CaffeineState) :
    (toggleDPMS s).1 = Except.ok () ∧ (toggleDPMS s).2.1 = s ∧
    quietTrace (toggleDPMS s).2.2 := by
  simp only [toggleDPMS, quietTrace]
  repeat' split
  all_goals simp [List.countP, List.countP.go, Evt.isEmit, Evt.isCompleted]

/-- `_toggleXSS` never raises, only changes `inhibit_id`, and emits
nothing. -/
theorem toggleXSS_spec (env : DesktopEnv) (s : CaffeineState) :
    (toggleXSS env s).1 = Except.ok () ∧
    framePreserved (toggleXSS env s).2.1 s ∧
    (toggleXSS env s).2.1.screensaverAndPowersavingType
      = s.screensaverAndPowersavingType ∧
    quietTrace (toggleXSS env s).2.2 := by
  obtain ⟨a, b, c, d, e, f, g, h, i, j, k⟩ := s
  simp only [toggleXSS, framePreserved, quietTrace]
  repeat' split
  all_goals simp [List.countP, List.countP.go, Evt.isEmit, Evt.isCompleted]

/-- `_toggleXSSAndDPMS` never raises, preserves the core fields, and
emits nothing. -/
theorem toggleXSSAndDPMS_spec (env : DesktopEnv) (s : CaffeineState) :
    (toggleXSSAndDPMS env s).1 = Except.ok () ∧
    framePreserved (toggleXSSAndDPMS env s).2.1 s ∧
    (toggleXSSAndDPMS env s).2.1.screensaverAndPowersavingType
      = s.screensaverAndPowersavingType ∧
    quietTrace (toggleXSSAndDPMS env s).2.2 := by
  obtain ⟨a, b, c, d, e, f, g, h, i, j, k⟩ := s
  cases d <;> cases i <;>
    simp [toggleXSSAndDPMS, seqPy, toggleXSS, toggleDPMS, framePreserved, quietTrace,
      List.countP, List.countP.go, Evt.isEmit, Evt.isCompleted]

/-- `_toggleGnome3` preserves the core fields, emits nothing, and
returns normally whenever the D-Bus calls of the environment succeed. -/
theorem toggleGnome3_spec (env : DesktopEnv) (s : CaffeineState) :
    framePreserved (toggleGnome3 env s).2.1 s ∧
    (toggleGnome3 env s).2.1.screensaverAndPowersavingType
      = s.screensaverAndPowersavingType ∧
    quietTrace (toggleGnome3 env s).2.2 ∧
    (env.ok = true → (toggleGnome3 env s).1 = Except.ok ()) := by
  obtain ⟨a, b, c, d, e, f, g, h, i, j, k⟩ := s
  cases d <;>
    (simp only [toggleGnome3, seqPy, toggleDPMS]
     repeat' split) <;>
    simp_all [framePreserved, quietTrace, DesktopEnv.ok,
      List.countP, List.countP.go, Evt.isEmit, Evt.isCompleted]

/-- `_toggleKDE` preserves the core fields, emits nothing, and returns
normally whenever the D-Bus calls of the environment succeed. -/
theorem toggleKDE_spec (env : DesktopEnv) (s : CaffeineState) :
    framePreserved (toggleKDE env s).2.1 s ∧
    (toggleKDE env s).2.1.screensaverAndPowersavingType
      = s.screensaverAndPowersavingType ∧
    quietTrace (toggleKDE env s).2.2 ∧
    (env.ok = true → (toggleKDE env s).1 = Except.ok ()) := by
  obtain ⟨a, b, c, d, e, f, g, h, i, j, k⟩ := s
  cases d <;>
    (simp only [toggleKDE, seqPy, toggleDPMS, kdeReleasePm]
     repeat' split) <;>
    simp_all [framePreserved, quietTrace, DesktopEnv.ok,
      List.countP, List.countP.go, Evt.isEmit, Evt.isCompleted]

/-- A trace without emissions filters to the empty emission list. -/
theorem quiet_filter_emit {t : List Evt} (h : t.countP Evt.isEmit = 0) :
    t.filter Evt.isEmit = [] := by
  rw [List.countP_eq_zero] at h
  simpa [List.filter_eq_nil_iff] using h

/-- The backend dispatch preserves the core fields and the detected
type, emits nothing, and returns normally whenever the D-Bus calls of
the environment succeed. -/
theorem backendDispatch_spec (env : DesktopEnv) (s : CaffeineState) :
    framePreserved (backendDispatch env s).2.1 s ∧
    (backendDispatch env s).2.1.screensaverAndPowersavingType
      = s.screensaverAndPowersavingType ∧
    quietTrace (backendDispatch env s).2.2 ∧
    (env.ok = true → (backendDispatch env s).1 = Except.ok ()) := by
  unfold backendDispatch
  split_ifs with h1 h2 h3 h4
  · exact toggleGnome3_spec env s
  · exact toggleKDE_spec env s
  · obtain ⟨r1, r2, r3, r4⟩ := toggleXSSAndDPMS_spec env s
    exact ⟨r2, r3, r4, fun _ => r1⟩
  · obtain ⟨r1, r2, r3⟩ := toggleDPMS_spec s
    refine ⟨?_, ?_, r3, fun _ => r1⟩ <;> simp [r2, framePreserved]
  · simp [framePreserved, quietTrace, List.countP_nil]

/-- `_performTogglingActions` preserves the activation flags, the auto
flag, the timer and the status string; it stores the freshly detected
backend type; it emits nothing; it flips `__inhibition_successful`
exactly when it returns normally; and it returns normally whenever the
D-Bus calls of the environment succeed. -/
theorem performTogglingActions_spec (env : DesktopEnv) (s : CaffeineState) :
    (performTogglingActions env s).2.1.inhibition_activated = s.inhibition_activated ∧
    (performTogglingActions env s).2.1.auto_activated = s.auto_activated ∧
    (performTogglingActions env s).2.1.timer = s.timer ∧
    (performTogglingActions env s).2.1.status_string = s.status_string ∧
    (performTogglingActions env s).2.1.screensaverAndPowersavingType
      = some (detectType env) ∧
    quietTrace (performTogglingActions env s).2.2 ∧
    (okBool (performTogglingActions env s).1 = true →
      (performTogglingActions env s).2.1.inhibition_successful
        = !s.inhibition_successful) ∧
    (okBool (performTogglingActions env s).1 = false →
      (performTogglingActions env s).2.1.inhibition_successful
        = s.inhibition_successful) ∧
    (env.ok = true → (performTogglingActions env s).1 = Except.ok ()) := by
  have hD := backendDispatch_spec env
    { s with screensaverAndPowersavingType := some (detectType env) }
  obtain ⟨⟨p1, p2, p3, p4, p5⟩, p6, ⟨q1, q2⟩, pok⟩ := hD
  simp only [performTogglingActions, seqPy, detectScreensaverAndPowersavingType,
    successFlip]
  cases hres : (backendDispatch env
      { s with screensaverAndPowersavingType := some (detectType env) }).1 with
  | error e =>
    simp only [hres]
    refine ⟨p1, p2, p4, p5, p6, ⟨?_, ?_⟩, fun h => ?_, fun _ => p3, fun hok => ?_⟩
    · simp [quietTrace, List.countP_append, List.countP_cons, List.countP_nil, q1,
        Evt.isEmit]
    · simp [quietTrace, List.countP_append, List.countP_cons, List.countP_nil, q2,
        Evt.isCompleted]
    · simp [okBool] at h
    · rw [pok hok] at hres
      simp at hres
  | ok u =>
    simp only [hres]
    refine ⟨p1, p2, p4, p5, p6, ⟨?_, ?_⟩, fun _ => ?_, fun h => ?_, ?_⟩
    pick_goal 5
    · simp
    · split <;>
        simp [quietTrace, List.countP_append, List.countP_cons, List.countP_nil, q1,
          Evt.isEmit]
    · split <;>
        simp [quietTrace, List.countP_append, List.countP_cons, List.countP_nil, q2,
          Evt.isCompleted]
    · simp [p3]
    · simp [okBool] at h

/-- The first half of `__toggle_activated` always flips the activation
flag, leaves the auto flag and the success flag alone, and neither emits
nor completes a toggle. -/
theorem deactivationPrelude_spec (env : DesktopEnv) (note : Bool) (s : CaffeineState) :
    (deactivationPrelude env note s).1.inhibition_activated = !s.inhibition_activated ∧
    (deactivationPrelude env note s).1.auto_activated = s.auto_activated ∧
    (deactivationPrelude env note s).1.inhibition_successful = s.inhibition_successful ∧
    quietTrace (deactivationPrelude env note s).2 := by
  obtain ⟨a, b, c, d, e, f, g, h, i, j, k⟩ := s
  cases c with
  | false =>
    simp [deactivationPrelude, quietTrace, List.countP_cons, List.countP_nil,
      Evt.isEmit, Evt.isCompleted]
  | true =>
    cases h with
    | none =>
      simp [deactivationPrelude, quietTrace, List.countP_cons, List.countP_nil,
        Evt.isEmit, Evt.isCompleted]
    | some tm =>
      cases note with
      | false =>
        by_cases hname : tm.name = "Expired" <;>
          simp [deactivationPrelude, hname, quietTrace, List.countP_append,
            List.countP_cons, List.countP_nil, Evt.isEmit, Evt.isCompleted]
      | true =>
        by_cases hname : tm.name = "Expired"
        · obtain ⟨w1, ⟨p1, p2, p3, p4, p5⟩, w3, q1, q2⟩ :=
            notifyMessage_spec env
              (toString tm.interval ++ " have elapsed; powersaving is re-enabled")
              Icon.emptyCup
              { status_string := dormantStatus, screensaverAndPowersavingType := b,
                inhibition_activated := false, inhibition_successful := d,
                auto_activated := e, screenSaverCookie := f,
                powerManagementCookie := g, timer := some tm, inhibit_id := i,
                note := j, ssProxySet := k }
          simp [deactivationPrelude, hname, quietTrace, List.countP_append,
            List.countP_cons, List.countP_nil, Evt.isEmit, Evt.isCompleted,
            p1, p2, p3, p4, p5, q1, q2]
        · obtain ⟨w1, ⟨p1, p2, p3, p4, p5⟩, w3, q1, q2⟩ :=
            notifyMessage_spec env
              ("Timed activation cancelled (was set for " ++ toString tm.interval ++ ")")
              Icon.emptyCup
              { status_string := dormantStatus, screensaverAndPowersavingType := b,
                inhibition_activated := false, inhibition_successful := d,
                auto_activated := e, screenSaverCookie := f,
                powerManagementCookie := g, timer := some tm, inhibit_id := i,
                note := j, ssProxySet := k }
          simp [deactivationPrelude, hname, quietTrace, List.countP_append,
            List.countP_cons, List.countP_nil, Evt.isEmit, Evt.isCompleted,
            p1, p2, p3, p4, p5, q1, q2]

/-- The central facts about `__toggle_activated`: it always flips the
activation flag and keeps the auto flag; it emits exactly one
`activation-toggled` event and completes exactly once when it returns
normally, and does neither when a backend call raises; it flips the
success flag exactly when it returns normally; the one emission carries
the post-toggle activation flag; and it returns normally whenever the
D-Bus calls of the environment succeed. -/
theorem toggle_activated_private_spec (env : DesktopEnv) (note : Bool) (s : CaffeineState) :
    (toggle_activated_private env note s).2.1.inhibition_activated
      = !s.inhibition_activated ∧
    (toggle_activated_private env note s).2.1.auto_activated = s.auto_activated ∧
    ((toggle_activated_private env note s).2.2.countP Evt.isEmit
      = if okBool (toggle_activated_private env note s).1 = true then 1 else 0) ∧
    ((toggle_activated_private env note s).2.2.countP Evt.isCompleted
      = if okBool (toggle_activated_private env note s).1 = true then 1 else 0) ∧
    (okBool (toggle_activated_private env note s).1 = true →
      (toggle_activated_private env note s).2.1.inhibition_successful
        = !s.inhibition_successful) ∧
    (okBool (toggle_activated_private env note s).1 = false →
      (toggle_activated_private env note s).2.1.inhibition_successful
        = s.inhibition_successful) ∧
    (okBool (toggle_activated_private env note s).1 = true →
      ∃ m, (toggle_activated_private env note s).2.2.filter Evt.isEmit
        = [Evt.emitActivationToggled (!s.inhibition_activated) m]) ∧
    (env.ok = true → (toggle_activated_private env note s).1 = Except.ok ()) := by
  obtain ⟨a1, a2, a3, ⟨b1, b2⟩⟩ := deactivationPrelude_spec env note s
  obtain ⟨c1, c2, c3, c4, c5, ⟨d1, d2⟩, e1, e2, e3⟩ :=
    performTogglingActions_spec env (deactivationPrelude env note s).1
  simp only [toggle_activated_private]
  obtain ⟨r, hres⟩ : ∃ r, (performTogglingActions env (deactivationPrelude env note s).1).1 = r :=
    ⟨_, rfl⟩
  simp only [hres]
  cases r with
  | error er =>
    refine ⟨?_, ?_, ?_, ?_, fun h => ?_, fun _ => ?_, fun h => ?_, fun hok => ?_⟩
    · rw [c1, a1]
    · rw [c2, a2]
    · simp [okBool, List.countP_append, b1, d1]
    · simp [okBool, List.countP_append, b2, d2]
    · simp [okBool] at h
    · rw [e2 (by rw [hres]; rfl), a3]
    · simp [okBool] at h
    · rw [e3 hok] at hres
      simp at hres
  | ok u =>
    have hflip := e1 (by rw [hres]; rfl)
    simp only [c5]
    refine ⟨?_, ?_, ?_, ?_, fun _ => ?_, fun h => ?_, fun _ => ?_, fun _ => ?_⟩
    · split <;> simp [c1, a1]
    · split <;> simp [c2, a2]
    · split <;>
        simp [okBool, List.countP_append, List.countP_cons, List.countP_nil, b1, d1,
          Evt.isEmit, Evt.isCompleted]
    · split <;>
        simp [okBool, List.countP_append, List.countP_cons, List.countP_nil, b2, d2,
          Evt.isEmit, Evt.isCompleted]
    · split <;> simp [hflip, a3]
    · simp [okBool] at h
    · split
      · refine ⟨"Caffeine is preventing powersaving modes and screensaver activation ("
            ++ detectType env ++ ")", ?_⟩
        simp [List.filter_append, quiet_filter_emit b1, quiet_filter_emit d1,
          Evt.isEmit, Evt.isCompleted, c1, a1]
      · refine ⟨(performTogglingActions env (deactivationPrelude env note s).1).2.1.status_string, ?_⟩
        simp [List.filter_append, quiet_filter_emit b1, quiet_filter_emit d1,
          Evt.isEmit, Evt.isCompleted, c1, a1]
    · trivial

/-- Facts about the public `toggle_activated`: it always flips the
activation flag and clears the auto flag; it emits exactly one event
when it returns normally and none otherwise; it flips the success flag
exactly when it returns normally; it returns normally whenever the
D-Bus calls of the environment succeed. -/
theorem toggle_activated_run (env : DesktopEnv) (sn : Bool) (s : CaffeineState) :
    (toggle_activated env sn s).2.1.inhibition_activated = !s.inhibition_activated ∧
    (toggle_activated env sn s).2.1.auto_activated = false ∧
    ((toggle_activated env sn s).2.2.countP Evt.isEmit
      = if okBool (toggle_activated env sn s).1 = true then 1 else 0) ∧
    (okBool (toggle_activated env sn s).1 = true →
      (toggle_activated env sn s).2.1.inhibition_successful
        = !s.inhibition_successful) ∧
    (okBool (toggle_activated env sn s).1 = false →
      (toggle_activated env sn s).2.1.inhibition_successful
        = s.inhibition_successful) ∧
    (env.ok = true → (toggle_activated env sn s).1 = Except.ok ()) := by
  obtain ⟨t1, t2, t3, t4, t5, t6, t7, t8⟩ :=
    toggle_activated_private_spec env sn { s with auto_activated := false }
  exact ⟨t1, t2, t3, t5, t6, t8⟩

/-- Both branches of `__set_activated` put the call marker at the head
of the produced trace. -/
theorem set_activated_private_marker (env : DesktopEnv) (b : Bool) (s : CaffeineState) :
    Evt.setActivatedCall b ∈ (set_activated_private env b s).2.2 := by
  unfold set_activated_private
  split <;> simp

/-- `__set_activated` preserves the mirror invariant of the two
inhibition flags whenever the D-Bus calls of the environment succeed. -/
theorem set_activated_private_pres (env : DesktopEnv) (b : Bool) (s : CaffeineState)
    (hok : env.ok = true) (hm : flagsMirrored s) :
    flagsMirrored (set_activated_private env b s).2.1 := by
  unfold set_activated_private
  split
  · obtain ⟨t1, t2, t3, t4, t5, t6, t7, t8⟩ := toggle_activated_private_spec env b s
    unfold flagsMirrored at hm ⊢
    rw [t5 (by rw [t8 hok]; rfl), t1, hm]
  · exact hm

/-- `set_activated` returns normally and preserves the mirror invariant
whenever the D-Bus calls of the environment succeed. -/
theorem set_activated_pres (env : DesktopEnv) (b sn : Bool) (s : CaffeineState)
    (hok : env.ok = true) (hm : flagsMirrored s) :
    (set_activated env b sn s).1 = Except.ok () ∧
    flagsMirrored (set_activated env b sn s).2.1 := by
  unfold set_activated
  split
  · obtain ⟨t1, t2, t3, t4, t5, t6⟩ := toggle_activated_run env sn s
    refine ⟨t6 hok, ?_⟩
    unfold flagsMirrored at hm ⊢
    rw [t4 (by rw [t6 hok]; rfl), t1, hm]
  · exact ⟨rfl, hm⟩

/-- The process loop returns true exactly when some whitelisted process
is running. -/
theorem procScan_fst (s : CaffeineState) (l : List (String × Bool)) :
    (procScan s l).1 = l.any (fun p => p.2) := by
  induction l with
  | nil => rfl
  | cons hd tl ih =>
    obtain ⟨nm, rn⟩ := hd
    cases rn <;> simp [procScan, ih]

/-- The process loop produces log lines only. -/
theorem procScan_logs (s : CaffeineState) (l : List (String × Bool)) :
    ∀ a ∈ (procScan s l).2, a.isLogged = true := by
  induction l with
  | nil => intro a ha; simp [procScan] at ha
  | cons hd tl ih =>
    obtain ⟨nm, rn⟩ := hd
    cases rn with
    | false => simpa [procScan] using ih
    | true =>
      intro a ha
      by_cases h1 : s.auto_activated = true
      · simp [procScan, h1] at ha
        rcases ha with ha | ha
        · subst ha; rfl
        · exact ih a ha
      · by_cases h2 : (!s.inhibition_activated) = true
        · simp [procScan, h1, h2] at ha
          rcases ha with ha | ha
          · subst ha; rfl
          · exact ih a ha
        · simp [procScan, h1, h2] at ha
          exact ih a ha

/-! ## Claim theorems -/

/-- C1: the claim that the backend type, once resolved, is stable for
the remainder of the run FAILS on the code: `_performTogglingActions`
reruns `_detectScreensaverAndPowersavingType` on every toggle, so when
the Gnome session manager vanishes and the freedesktop services appear
between two toggles, the cached backend changes from Gnome3 to KDE. -/
theorem backend_redetected_on_every_toggle :
    (toggle_activated envGnome true initialState).2.1.screensaverAndPowersavingType
      = some "Gnome3" ∧
    (toggle_activated envKde true
        (toggle_activated envGnome true initialState).2.1).2.1.screensaverAndPowersavingType
      = some "KDE" :=
  ⟨rfl, rfl⟩

/-- C2 counterexample: when the selected backend raises (Gnome host
whose Inhibit call fails), the error is NOT swallowed: the toggle
aborts with the exception, the active flag has already flipped, and no
activation-toggled event is emitted. -/
theorem backend_failure_aborts_toggle_cex :
    (toggle_activated envGnomeBroken true initialState).1
      = Except.error PyErr.dbusError ∧
    (toggle_activated envGnomeBroken true initialState).2.1.inhibition_activated
      = true ∧
    (toggle_activated envGnomeBroken true initialState).2.2.countP Evt.isEmit = 0 :=
  ⟨rfl, rfl, rfl⟩

/-- C2 amended: for every environment (including ones whose D-Bus calls
raise), a toggle always flips the active flag (the flip happens before
the backend call), and it emits exactly one activation-toggled event
when the backend calls return and none when one of them raises (the
exception propagates and skips status composition and emission). -/
theorem backend_failure_toggle_semantics (env : DesktopEnv) (sn : Bool)
    (s : CaffeineState) :
    (toggle_activated env sn s).2.1.inhibition_activated = !s.inhibition_activated ∧
    ((toggle_activated env sn s).2.2.countP Evt.isEmit
      = if okBool (toggle_activated env sn s).1 = true then 1 else 0) := by
  obtain ⟨t1, t2, t3, t4, t5, t6⟩ := toggle_activated_run env sn s
  exact ⟨t1, t3⟩

/-- C3 counterexample: a single `timed_activation` call from the
initial state produces TWO activation-toggled emissions but only ONE
completed toggle, and the first emission carries the pre-toggle value
`false` of the active flag although the call leaves the flag `true`. -/
theorem timed_activation_double_emission_cex :
    (timed_activation envDpms 5 true initialState).2.2.countP Evt.isEmit = 2 ∧
    (timed_activation envDpms 5 true initialState).2.2.countP Evt.isCompleted = 1 ∧
    Evt.emitActivationToggled false ("Activated for " ++ toString 5)
      ∈ (timed_activation envDpms 5 true initialState).2.2 ∧
    (timed_activation envDpms 5 true initialState).2.1.inhibition_activated = true := by
  refine ⟨rfl, rfl, by decide, rfl⟩

/-- C3 amended: every completed run of the internal toggle emits exactly
one event, which carries the post-toggle active flag; but
`timed_activation` emits one additional event before toggling whenever
the status string is empty, and that extra event carries the pre-call
active flag, so emissions can outnumber completed toggles. -/
theorem emission_per_toggle_amended :
    (∀ (env : DesktopEnv) (note : Bool) (s : CaffeineState),
      okBool (toggle_activated_private env note s).1 = true →
        (toggle_activated_private env note s).2.2.countP Evt.isEmit = 1 ∧
        (toggle_activated_private env note s).2.2.countP Evt.isCompleted = 1 ∧
        ∃ m, (toggle_activated_private env note s).2.2.filter Evt.isEmit
          = [Evt.emitActivationToggled (!s.inhibition_activated) m]) ∧
    (∀ (env : DesktopEnv) (time : Nat) (note : Bool) (s : CaffeineState),
      s.status_string = "" →
        ((timed_activation env time note s).2.2.filter Evt.isEmit).head?
          = some (Evt.emitActivationToggled s.inhibition_activated
              ("Activated for " ++ toString time))) := by
  constructor
  · intro env note s h
    obtain ⟨t1, t2, t3, t4, t5, t6, t7, t8⟩ := toggle_activated_private_spec env note s
    rw [h] at t3 t4
    exact ⟨by rw [t3]; rfl, by rw [t4]; rfl, t7 h⟩
  · intro env time note s hstat
    simp only [timed_activation, hstat, if_pos]
    obtain ⟨r, hres⟩ : ∃ r, (set_activated env true note
        { s with status_string := "Activated for " ++ toString time }).1 = r := ⟨_, rfl⟩
    simp only [hres]
    cases r with
    | error er =>
      simp [List.filter_append, List.filter_cons, Evt.isEmit]
    | ok u =>
      simp [List.filter_append, List.filter_cons, Evt.isEmit]

/-- C3 amended witness: the amended statement instantiated at the bare
X11 host and the initial state. -/
theorem emission_per_toggle_amended_witness :
    ((toggle_activated_private envDpms true initialState).2.2.countP Evt.isEmit = 1 ∧
     (toggle_activated_private envDpms true initialState).2.2.countP Evt.isCompleted = 1 ∧
     ∃ m, (toggle_activated_private envDpms true initialState).2.2.filter Evt.isEmit
       = [Evt.emitActivationToggled (!initialState.inhibition_activated) m]) ∧
    (((timed_activation envDpms 5 true initialState).2.2.filter Evt.isEmit).head?
      = some (Evt.emitActivationToggled initialState.inhibition_activated
          ("Activated for " ++ toString 5))) :=
  ⟨emission_per_toggle_amended.1 envDpms true initialState rfl,
   emission_per_toggle_amended.2 envDpms 5 true initialState rfl⟩

/-- C4: calling `set_activated` with the currently-active value is a
true no-op: same state (timer included), empty trace, normal return. -/
theorem set_activated_same_noop (env : DesktopEnv) (b sn : Bool) (s : CaffeineState)
    (h : b = s.inhibition_activated) :
    set_activated env b sn s = (Except.ok (), s, []) := by
  simp [set_activated, h]

/-- C4 witness: the no-op instantiated at the initial state. -/
theorem set_activated_same_noop_witness :
    false = initialState.inhibition_activated ∧
    set_activated envDpms false true initialState = (Except.ok (), initialState, []) :=
  ⟨rfl, set_activated_same_noop envDpms false true initialState rfl⟩

/-- C5: whenever the backend calls of the environment succeed,
`toggle_activated` flips the active flag to its negation, clears the
auto-activated flag, and emits exactly one activation-toggled event,
for every state. -/
theorem toggle_flip_clear_emit (env : DesktopEnv) (sn : Bool) (s : CaffeineState)
    (hok : env.ok = true) :
    (toggle_activated env sn s).2.1.inhibition_activated = !s.inhibition_activated ∧
    (toggle_activated env sn s).2.1.auto_activated = false ∧
    (toggle_activated env sn s).2.2.countP Evt.isEmit = 1 := by
  obtain ⟨t1, t2, t3, t4, t5, t6⟩ := toggle_activated_run env sn s
  refine ⟨t1, t2, ?_⟩
  rw [t3, t6 hok]
  rfl

/-- C5 witness: the flip instantiated at the bare X11 host and a state
in which inhibition is already active by side effect. -/
theorem toggle_flip_clear_emit_witness :
    envDpms.ok = true ∧
    ((toggle_activated envDpms true autoOnState).2.1.inhibition_activated
       = !autoOnState.inhibition_activated ∧
     (toggle_activated envDpms true autoOnState).2.1.auto_activated = false ∧
     (toggle_activated envDpms true autoOnState).2.2.countP Evt.isEmit = 1) :=
  ⟨rfl, toggle_flip_clear_emit envDpms true autoOnState rfl⟩

/-- C7: while inhibition is manually activated (active and not
auto-activated), a monitor tick leaves the state unchanged and produces
nothing but one log line, whatever the processes and windows do. -/
theorem monitor_manual_noop (env : DesktopEnv) (s : CaffeineState)
    (hAct : s.inhibition_activated = true) (hAuto : s.auto_activated = false) :
    attempt_autoactivation env s
      = (Except.ok true, s,
         [Evt.logged "Inhibition manually activated. Will not attempt to auto-activate"]) := by
  simp [attempt_autoactivation, hAct, hAuto]

/-- C7 witness: a manually activated state on a host with a running
whitelisted process and a fullscreen window. -/
theorem monitor_manual_noop_witness :
    manualState.inhibition_activated = true ∧
    manualState.auto_activated = false ∧
    attempt_autoactivation envBusy manualState
      = (Except.ok true, manualState,
         [Evt.logged "Inhibition manually activated. Will not attempt to auto-activate"]) :=
  ⟨rfl, rfl, monitor_manual_noop envBusy manualState rfl rfl⟩

/-- C6: starting from the initial (Off) state on a bare X11 host,
`timed_activation 5` then `timed_activation 10` leaves exactly one live
timer, set for 10 ("Active"); the supersession log names both
durations; and the second call emits no deactivation event
(no event with `active = false`) and leaves inhibition active. -/
theorem timed_supersession_scenario :
    (timed_activation envDpms 5 true initialState).1 = Except.ok () ∧
    (timed_activation envDpms 10 true
       (timed_activation envDpms 5 true initialState).2.1).1 = Except.ok () ∧
    (timed_activation envDpms 10 true
       (timed_activation envDpms 5 true initialState).2.1).2.1.timer
      = some { interval := 10, name := "Active" } ∧
    liveTimers ((timed_activation envDpms 5 true initialState).2.2
        ++ (timed_activation envDpms 10 true
             (timed_activation envDpms 5 true initialState).2.1).2.2) = [10] ∧
    Evt.logged ("Previous timed activation cancelled due to a second timed activation request (was set for "
        ++ toString 5 ++ " or " ++ toString 10 ++ " seconds )")
      ∈ (timed_activation envDpms 10 true
           (timed_activation envDpms 5 true initialState).2.1).2.2 ∧
    (timed_activation envDpms 10 true
       (timed_activation envDpms 5 true initialState).2.1).2.2.countP Evt.isFalseEmit
      = 0 ∧
    (timed_activation envDpms 10 true
       (timed_activation envDpms 5 true initialState).2.1).2.1.inhibition_activated
      = true := by
  refine ⟨rfl, rfl, rfl, rfl, by decide, rfl, rfl⟩

/-- C8: on a monitor tick that does not early-return (not manually
activated) and does not auto-deactivate, the activation branch (a
`__set_activated True` call) is taken exactly when
`process_running OR (fullscreen AND NOT auto_activated)` holds, with the
short-circuit asymmetry of the source. -/
theorem monitor_activation_condition (env : DesktopEnv) (s : CaffeineState)
    (h1 : (s.inhibition_activated && !s.auto_activated) = false)
    (h2 : ((!(procScan s env.procs).1 && !fullscreenDetected env)
            && s.auto_activated) = false) :
    (Evt.setActivatedCall true ∈ (attempt_autoactivation env s).2.2)
      ↔ ((procScan s env.procs).1 = true
          ∨ (fullscreenDetected env = true ∧ s.auto_activated = false)) := by
  have hmark := set_activated_private_marker env true { s with auto_activated := true }
  have hnotin : Evt.setActivatedCall true ∉ (procScan s env.procs).2 := by
    intro hmem
    have hl := procScan_logs s env.procs _ hmem
    simp [Evt.isLogged] at hl
  by_cases hcond : ((procScan s env.procs).1
      || (fullscreenDetected env && !s.auto_activated)) = true
  · have hrhs : (procScan s env.procs).1 = true
        ∨ (fullscreenDetected env = true ∧ s.auto_activated = false) := by
      simpa [Bool.or_eq_true, Bool.and_eq_true, Bool.not_eq_true'] using hcond
    refine iff_of_true ?_ hrhs
    simp [attempt_autoactivation, h1, h2, hcond, hmark]
  · have hrhs : ¬((procScan s env.procs).1 = true
        ∨ (fullscreenDetected env = true ∧ s.auto_activated = false)) := by
      simpa [Bool.or_eq_true, Bool.and_eq_true, Bool.not_eq_true'] using hcond
    refine iff_of_false ?_ hrhs
    have hpr : (procScan s env.procs).1 = false := by
      by_cases hp : (procScan s env.procs).1 = true
      · exact absurd (by simp [hp]) hcond
      · simpa using hp
    by_cases hfs : fullscreenDetected env = true <;>
      by_cases hauto : s.auto_activated = true <;>
      by_cases hact : s.inhibition_activated = true <;>
      first
        | (exfalso
           exact hrhs (Or.inr ⟨hfs, by simpa using hauto⟩))
        | (exfalso
           have hauto2 : s.auto_activated = true := hauto
           have hfs2 : fullscreenDetected env = false := by simpa using hfs
           rw [hpr, hfs2, hauto2] at h2
           simp at h2)
        | simp [attempt_autoactivation, h1, h2, hcond, hpr, hfs, hauto, hact, hnotin]

/-- C8 witness: a bare host with one running whitelisted process and a
fullscreen window, ticking on the initial state. -/
theorem monitor_activation_condition_witness :
    ((initialState.inhibition_activated && !initialState.auto_activated) = false) ∧
    (((!(procScan initialState envBusy.procs).1 && !fullscreenDetected envBusy)
        && initialState.auto_activated) = false) ∧
    ((Evt.setActivatedCall true ∈ (attempt_autoactivation envBusy initialState).2.2)
      ↔ ((procScan initialState envBusy.procs).1 = true
          ∨ (fullscreenDetected envBusy = true ∧ initialState.auto_activated = false))) :=
  ⟨rfl, rfl, monitor_activation_condition envBusy initialState rfl rfl⟩

/-- C9: during a deactivating toggle (inhibition marked successful),
every adapter tolerates an absent cookie: no uninhibit call is made for
an absent cookie and no error is raised because of it; for the KDE
adapter this holds independently for the screensaver cookie and the
power-management cookie. -/
theorem uninhibit_missing_cookie_safe (env : DesktopEnv) (s : CaffeineState)
    (hs : s.inhibition_successful = true) :
    (s.screenSaverCookie = none →
      (toggleGnome3 env s).1 = Except.ok () ∧
      (toggleGnome3 env s).2.2.countP Evt.isGnomeUninhibit = 0) ∧
    (s.screenSaverCookie = none →
      (toggleKDE env s).2.2.countP Evt.isSsUninhibit = 0) ∧
    (s.powerManagementCookie = none →
      (toggleKDE env s).2.2.countP Evt.isPmUninhibit = 0) ∧
    (s.screenSaverCookie = none → s.powerManagementCookie = none →
      (toggleKDE env s).1 = Except.ok () ∧
      (toggleKDE env s).2.2.countP Evt.isSsUninhibit = 0 ∧
      (toggleKDE env s).2.2.countP Evt.isPmUninhibit = 0) ∧
    (s.inhibit_id = none →
      (toggleXSSAndDPMS env s).1 = Except.ok () ∧
      (toggleXSSAndDPMS env s).2.2.countP Evt.isSourceRemoved = 0) ∧
    ((toggleDPMS s).1 = Except.ok () ∧
      (toggleDPMS s).2.2.countP Evt.isGnomeUninhibit = 0 ∧
      (toggleDPMS s).2.2.countP Evt.isSsUninhibit = 0 ∧
      (toggleDPMS s).2.2.countP Evt.isPmUninhibit = 0) := by
  obtain ⟨a, b, c, d, e, f, g, h, i, j, k⟩ := s
  simp only at hs
  subst hs
  refine ⟨fun hf => ?_, fun hf => ?_, fun hg => ?_, fun hf hg => ?_, fun hi => ?_, ?_⟩
  · subst hf
    simp [toggleGnome3, seqPy, toggleDPMS, List.countP_append, List.countP_cons,
      List.countP_nil, Evt.isGnomeUninhibit]
  · subst hf
    simp only [toggleKDE, seqPy, toggleDPMS, kdeReleasePm]
    repeat' split
    all_goals
      simp_all [List.countP_append, List.countP_cons, List.countP_nil, Evt.isSsUninhibit]
  · subst hg
    simp only [toggleKDE, seqPy, toggleDPMS, kdeReleasePm]
    repeat' split
    all_goals
      simp_all [List.countP_append, List.countP_cons, List.countP_nil, Evt.isPmUninhibit]
  · subst hf; subst hg
    simp [toggleKDE, seqPy, toggleDPMS, kdeReleasePm, List.countP_append,
      List.countP_cons, List.countP_nil, Evt.isSsUninhibit, Evt.isPmUninhibit]
  · subst hi
    simp [toggleXSSAndDPMS, toggleXSS, seqPy, toggleDPMS, List.countP_append,
      List.countP_cons, List.countP_nil, Evt.isSourceRemoved]
  · simp [toggleDPMS, List.countP_cons, List.countP_nil, Evt.isGnomeUninhibit,
      Evt.isSsUninhibit, Evt.isPmUninhibit]

/-- C9 witness: a successful-inhibition state with no cookies at all,
as after a first-ever deactivating toggle. -/
theorem uninhibit_missing_cookie_safe_witness :
    ({ initialState with inhibition_successful := true
       } : CaffeineState).inhibition_successful = true ∧
    (toggleGnome3 envDpms { initialState with inhibition_successful := true }).1
      = Except.ok () ∧
    (toggleKDE envDpms { initialState with inhibition_successful := true }).1
      = Except.ok () ∧
    (toggleXSSAndDPMS envDpms { initialState with inhibition_successful := true }).1
      = Except.ok () := by
  have hmain := uninhibit_missing_cookie_safe envDpms
    { initialState with inhibition_successful := true } rfl
  exact ⟨rfl, (hmain.1 rfl).1, (hmain.2.2.2.1 rfl rfl).1, (hmain.2.2.2.2.1 rfl).1⟩

/-- C10: the two booleans `__inhibition_successful` and
`__inhibition_activated` mirror each other: both start false at
construction, and every completed public operation (set, toggle, timed
activation, a monitor tick, timer expiry) preserves their equality, as
each completed toggle flips both exactly once.  The backend adapters
branch on `__inhibition_successful`, which therefore tracks the
requested direction, never actual call success. -/
theorem flags_mirrored_invariant :
    flagsMirrored initialState ∧
    (∀ (env : DesktopEnv) (b sn : Bool) (s : CaffeineState),
      env.ok = true → flagsMirrored s →
        flagsMirrored (set_activated env b sn s).2.1) ∧
    (∀ (env : DesktopEnv) (sn : Bool) (s : CaffeineState),
      env.ok = true → flagsMirrored s →
        flagsMirrored (toggle_activated env sn s).2.1) ∧
    (∀ (env : DesktopEnv) (t : Nat) (sn : Bool) (s : CaffeineState),
      env.ok = true → flagsMirrored s →
        flagsMirrored (timed_activation env t sn s).2.1) ∧
    (∀ (env : DesktopEnv) (s : CaffeineState),
      env.ok = true → flagsMirrored s →
        flagsMirrored (attempt_autoactivation env s).2.1) ∧
    (∀ (env : DesktopEnv) (sn : Bool) (s : CaffeineState),
      env.ok = true → flagsMirrored s → s.timer.isSome = true →
        flagsMirrored (deactivate env sn s).2.1) := by
  have toggleCase : ∀ (env : DesktopEnv) (sn : Bool) (s : CaffeineState),
      env.ok = true → flagsMirrored s →
        flagsMirrored (toggle_activated env sn s).2.1 := by
    intro env sn s hok hm
    obtain ⟨t1, t2, t3, t4, t5, t6⟩ := toggle_activated_run env sn s
    unfold flagsMirrored at hm ⊢
    rw [t4 (by rw [t6 hok]; rfl), t1, hm]
  refine ⟨rfl, ?_, toggleCase, ?_, ?_, ?_⟩
  · intro env b sn s hok hm
    exact (set_activated_pres env b sn s hok hm).2
  · intro env t sn s hok hm
    have hm1 : flagsMirrored
        (if s.status_string = "" then
          { s with status_string := "Activated for " ++ toString t } else s) := by
      split <;> exact hm
    obtain ⟨hr, hm2⟩ := set_activated_pres env true sn
      (if s.status_string = "" then
        { s with status_string := "Activated for " ++ toString t } else s) hok hm1
    obtain ⟨n1, ⟨p1, p2, p3, p4, p5⟩, n3, q⟩ := notifyMessage_spec env
      ("Timed activation set; Caffeine will prevent powersaving for the next "
        ++ toString t) Icon.fullCup
      (set_activated env true sn
        (if s.status_string = "" then
          { s with status_string := "Activated for " ++ toString t } else s)).2.1
    unfold flagsMirrored at hm2 ⊢
    simp only [timed_activation, hr]
    cases sn <;> simp [p1, p3, hm2]
  · intro env s hok hm
    simp only [attempt_autoactivation]
    repeat' split
    all_goals
      first
        | exact hm
        | exact set_activated_private_pres env false _ hok hm
        | exact set_activated_private_pres env true _ hok hm
  · intro env sn s hok hm ht
    unfold deactivate
    cases htm : s.timer with
    | none => rw [htm] at ht; simp at ht
    | some tm =>
      simp only [htm]
      exact toggleCase env sn
        { s with timer := some { tm with name := "Expired" } } hok hm

/-- C10 witness: the invariant instantiated at the bare X11 host, the
initial state, and a state with a pending timer. -/
theorem flags_mirrored_invariant_witness :
    flagsMirrored (set_activated envDpms true true initialState).2.1 ∧
    flagsMirrored (toggle_activated envDpms true initialState).2.1 ∧
    flagsMirrored (timed_activation envDpms 5 true initialState).2.1 ∧
    flagsMirrored (attempt_autoactivation envBusy initialState).2.1 ∧
    flagsMirrored (deactivate envDpms true
      { initialState with timer := some { interval := 5, name := "Active" } }).2.1 :=
  ⟨flags_mirrored_invariant.2.1 envDpms true true initialState rfl rfl,
   flags_mirrored_invariant.2.2.1 envDpms true initialState rfl rfl,
   flags_mirrored_invariant.2.2.2.1 envDpms 5 true initialState rfl rfl,
   flags_mirrored_invariant.2.2.2.2.1 envBusy initialState rfl rfl,
   flags_mirrored_invariant.2.2.2.2.2 envDpms true
     { initialState with timer := some { interval := 5, name := "Active" } } rfl rfl rfl⟩
